import Mathlib

/-!
Shallow embedding of the task-organizer frontend API client
(src/unnamed/part_001, the defensive REST client with response
normalization) and of the task-list state handlers of
src/frontend_web/src/App.js.

Conventions of the embedding:
* Decoded JSON values are modelled by the inductive type JsValue;
  JSON numbers are modelled as integers, which covers every value the
  claims mention. A JavaScript string value is JsValue.str.
* An HTTP response is modelled by its status, its content-type header
  (none when the header is absent), the outcome of reading the body as
  text (none when reading fails, which the code turns into the empty
  string), the outcome of res.json (none when decoding fails), and the
  decode-error text used for the __error field of the wrapper object.
* JavaScript string operations used by the code - includes, trim,
  startsWith, toLowerCase, toUpperCase - are implemented on the
  character list of the string so that every definition evaluates
  inside the kernel. Whitespace is the ASCII whitespace the bodies in
  question can contain.
* Thrown errors are modelled with Except: Except.error carries the
  message of the thrown Error, Except.ok the returned value.
-/

/-- Test whether the first character list is an initial segment of the
second; this is the startsWith of the code. -/
def leadsWith : List Char → List Char → Bool
  | [], _ => true
  | _ :: _, [] => false
  | p :: ps, c :: cs => p == c && leadsWith ps cs

/-- Test whether pat occurs as a contiguous run inside l; this is the
includes of the code. -/
def hasSub (pat : List Char) : List Char → Bool
  | [] => leadsWith pat []
  | c :: cs => leadsWith pat (c :: cs) || hasSub pat cs

/-- ASCII whitespace characters removed by trim. -/
def isSpaceChar (c : Char) : Bool :=
  c == ' ' || c == '\t' || c == '\n' || c == '\r'

/-- Drop the longest run of characters satisfying p from the front. -/
def dropLeading (p : Char → Bool) : List Char → List Char
  | [] => []
  | c :: cs => if p c then dropLeading p cs else c :: cs

/-- Remove leading and trailing whitespace; this is the trim of the
code. -/
def trimChars (l : List Char) : List Char :=
  ((dropLeading isSpaceChar ((dropLeading isSpaceChar l).reverse)).reverse)

/-- String-level trim. -/
def strTrim (s : String) : String := ⟨trimChars s.data⟩

/-- String-level includes. -/
def strHas (s pat : String) : Bool := hasSub pat.data s.data

/-- String-level toLowerCase (ASCII, which covers content-type
headers). -/
def strLower (s : String) : String := ⟨s.data.map Char.toLower⟩

/-- String-level toUpperCase (ASCII, which covers HTTP method
names). -/
def strUpper (s : String) : String := ⟨s.data.map Char.toUpper⟩

/-- JavaScript a || b on an optional string: undefined and the empty
string are falsy, so the default is used for both. -/
def jsOrStr : Option String → String → String
  | some s, d => if s == "" then d else s
  | none, d => d

/-- Decoded JSON values, the result space of res.json. Numbers are
modelled as integers. -/
inductive JsValue where
  | null
  | bool (b : Bool)
  | num (n : Int)
  | str (s : String)
  | arr (elems : List JsValue)
  | obj (fields : List (String × JsValue))

/-- JavaScript truthiness of a JsValue: null, false, 0 and the empty
string are falsy, every array and object is truthy. -/
def jsTruthy : JsValue → Bool
  | JsValue.null => false
  | JsValue.bool b => b
  | JsValue.num n => !(n == 0)
  | JsValue.str s => !(s == "")
  | JsValue.arr _ => true
  | JsValue.obj _ => true

/-- Truthiness of an optional JsValue, where none models the undefined
result of reading an absent property. -/
def jsTruthyOpt : Option JsValue → Bool
  | none => false
  | some v => jsTruthy v

/-- Property lookup in a field list where, as in a decoded JSON object,
a later duplicate key overrides an earlier one. -/
def lookupLast : List (String × JsValue) → String → Option JsValue
  | [], _ => none
  | (k1, v) :: rest, k =>
    match lookupLast rest k with
    | some v2 => some v2
    | none => if k1 == k then some v else none

/-- JavaScript property access body.key: an object yields the value of
the field when present, every other value yields undefined. -/
def getField : JsValue → String → Option JsValue
  | JsValue.obj fields, k => lookupLast fields k
  | _, _ => none

/-- Test for a JavaScript string value, the typeof body check of the
code. -/
def isStringJs : JsValue → Bool
  | JsValue.str _ => true
  | _ => false

/-- An HTTP response as the client observes it. jsonBody is the outcome
of res.json on the body (none when decoding throws); textBody is the
outcome of res.text (none when reading throws, turned into the empty
string by the catch of the code); parseErrMsg is the text of the decode
error. -/
structure HttpResponse where
  status : Nat
  contentType : Option String
  textBody : Option String
  jsonBody : Option JsValue
  parseErrMsg : String

/-- res.ok of the fetch API: status in the range 200 to 299. -/
def statusOk (status : Nat) : Bool :=
  200 ≤ status && status ≤ 299

/-- Content-type classification of safeReadBody: lower-case the header
(empty when absent) and look for application/json or a +json suffix
media type. -/
def isJsonContentType (ct : Option String) : Bool :=
  let c := strLower (ct.getD "")
  strHas c "application/json" || strHas c "+json"

/-- safeReadBody of the code: on a JSON content type decode the body,
wrapping a decode failure in an object marked by the __parse_error
field; on any other content type return the body text as a string
value. A failed body read yields the empty string. -/
def safeReadBody (res : HttpResponse) : JsValue :=
  if isJsonContentType res.contentType then
    match res.jsonBody with
    | some j => j
    | none =>
      JsValue.obj
        [("__parse_error", JsValue.bool true),
         ("__raw", JsValue.str (res.textBody.getD "")),
         ("__error", JsValue.str res.parseErrMsg)]
  else
    JsValue.str (res.textBody.getD "")

/-- Hint used when the captured body is a string whose trimmed form
starts with an HTML document declaration. -/
def htmlHint : String :=
  "Received HTML instead of JSON. Check API base URL configuration."

/-- Hint used for every other captured body. -/
def serverHint : String := "Unexpected response from server."

/-- The HTML test of toHelpfulErrorMessage: the body is a string value
and its trimmed form starts with the document declaration. -/
def isHtmlString : JsValue → Bool
  | JsValue.str s => leadsWith "<!DOCTYPE".data (trimChars s.data)
  | _ => false

/-- toHelpfulErrorMessage of the code: method, path and status composed
into a diagnostic line followed by the classification hint. -/
def toHelpfulErrorMessage (method path : String) (status : Nat) (body : JsValue) : String :=
  method ++ " " ++ path ++ " failed (" ++ toString status ++ "). " ++
    (if isHtmlString body then htmlHint else serverHint)

/-- Message thrown on a success status whose body is a plain string. -/
def nonJsonMsg (method path : String) : String :=
  "Unexpected non-JSON response for " ++ method ++ " " ++ path ++
    ". Check API base URL configuration."

/-- Message thrown on a success status whose body carried the decode
failure marker. -/
def invalidJsonMsg (method path : String) : String :=
  "Invalid JSON response for " ++ method ++ " " ++ path ++
    ". Check API base URL configuration."

/-- Method normalization of requestJson: default GET, upper-cased. -/
def normMethod (methodOpt : Option String) : String :=
  strUpper (jsOrStr methodOpt "GET")

/-- requestJson of the code, applied to the observed response: read the
body defensively, then fail on a non-success status with the helpful
message, then fail on a string body, then fail on the decode-failure
marker, and otherwise return the decoded value. -/
def requestJson (methodOpt : Option String) (path : String) (res : HttpResponse) :
    Except String JsValue :=
  let method := normMethod methodOpt
  let body := safeReadBody res
  if !(statusOk res.status) then
    Except.error (toHelpfulErrorMessage method path res.status body)
  else if isStringJs body then
    Except.error (nonJsonMsg method path)
  else if jsTruthy body && jsTruthyOpt (getField body "__parse_error") then
    Except.error (invalidJsonMsg method path)
  else
    Except.ok body

/-- Trailing-slash removal of the API_BASE expression, the regex
replace of a single final slash. -/
def stripTrailingSlash (s : String) : String :=
  match s.data.getLast? with
  | some c => if c == '/' then ⟨s.data.dropLast⟩ else s
  | none => s

/-- API_BASE of the code: REACT_APP_API_BASE, else
REACT_APP_API_BASE_URL, else the empty string, with a trailing slash
stripped. The two arguments are the values of the two environment
variables, none when unset. -/
def API_BASE (reactAppApiBase reactAppApiBaseUrl : Option String) : String :=
  stripTrailingSlash (jsOrStr reactAppApiBase (jsOrStr reactAppApiBaseUrl ""))

/-- url of the code: base followed by the request path. -/
def url (base path : String) : String := base ++ path

/-- Fixed path of the list and create operations. -/
def tasksPath : String := "/tasks"

/-- Identifier-interpolated path of update and delete. -/
def taskPath (taskId : Int) : String := "/tasks/" ++ toString taskId

/-- Identifier-interpolated path of toggle. -/
def togglePath (taskId : Int) : String := "/tasks/" ++ toString taskId ++ "/toggle"

/-- Request URL of listTasks. -/
def listTasksUrl (base : String) : String := url base tasksPath

/-- Request URL of createTask. -/
def createTaskUrl (base : String) : String := url base tasksPath

/-- Request URL of updateTask. -/
def updateTaskUrl (base : String) (taskId : Int) : String := url base (taskPath taskId)

/-- Request URL of toggleTask. -/
def toggleTaskUrl (base : String) (taskId : Int) : String := url base (togglePath taskId)

/-- Request URL of deleteTask. -/
def deleteTaskUrl (base : String) (taskId : Int) : String := url base (taskPath taskId)

/-- listTasks of the code: GET on the tasks path through requestJson,
applied to the observed response. -/
def listTasks (res : HttpResponse) : Except String JsValue :=
  requestJson none tasksPath res

/-- createTask of the code: POST on the tasks path through requestJson.
The title only shapes the request body, which the response handling
never consults. -/
def createTask (_title : String) (res : HttpResponse) : Except String JsValue :=
  requestJson (some "POST") tasksPath res

/-- updateTask of the code: PUT on the task path through requestJson.
The patch only shapes the request body. -/
def updateTask (taskId : Int) (_patch : JsValue) (res : HttpResponse) :
    Except String JsValue :=
  requestJson (some "PUT") (taskPath taskId) res

/-- toggleTask of the code: POST on the toggle path through
requestJson. -/
def toggleTask (taskId : Int) (res : HttpResponse) : Except String JsValue :=
  requestJson (some "POST") (togglePath taskId) res

/-- deleteTask of the code: it bypasses requestJson, succeeds with no
value on a success status, and only on failure reads the body and
throws the same normalized message as the other operations. -/
def deleteTask (taskId : Int) (res : HttpResponse) : Except String Unit :=
  if !(statusOk res.status) then
    Except.error
      (toHelpfulErrorMessage "DELETE" (taskPath taskId) res.status (safeReadBody res))
  else
    Except.ok ()

/-- A task as the UI holds it. -/
structure TaskItem where
  id : Int
  title : String
  is_completed : Bool

/-- Comparator of sortTasks in App.js as a before-or-equal test:
completed tasks go to the bottom, within a group larger identifiers
come first. -/
def sortLe (a b : TaskItem) : Bool :=
  if a.is_completed != b.is_completed then !a.is_completed
  else decide (b.id ≤ a.id)

/-- sortTasks of App.js: a stable sort of a copy of the list by the
comparator. -/
def sortTasks (tasks : List TaskItem) : List TaskItem :=
  tasks.mergeSort sortLe

/-- The pieces of App state the handlers touch. -/
structure AppState where
  tasks : List TaskItem
  newTitle : String
  error : String
  editingId : Option Int
  editingTitle : String

/-- handleAdd of App.js given the awaited outcome of createTask: an
empty trimmed title returns before any request; on success the created
task is prepended and sorted and the input cleared; on failure only the
error message is set, with a fallback for an empty message. -/
def handleAdd (s : AppState) (result : Except String TaskItem) : AppState :=
  let title := strTrim s.newTitle
  if title == "" then s
  else
    match result with
    | Except.ok created =>
      { s with error := "", tasks := sortTasks (created :: s.tasks), newTitle := "" }
    | Except.error m =>
      { s with error := jsOrStr (some m) "Failed to create task." }

/-- handleToggle of App.js given the awaited outcome of toggleTask. -/
def handleToggle (s : AppState) (taskId : Int) (result : Except String TaskItem) : AppState :=
  match result with
  | Except.ok updated =>
    { s with error := "",
             tasks := sortTasks (s.tasks.map (fun t => if t.id == taskId then updated else t)) }
  | Except.error m =>
    { s with error := jsOrStr (some m) "Failed to toggle task." }

/-- saveEdit of App.js given the awaited outcome of updateTask: an
empty trimmed edit title returns before any request; on success the
task is replaced, the list sorted and edit mode left. -/
def saveEdit (s : AppState) (taskId : Int) (result : Except String TaskItem) : AppState :=
  let title := strTrim s.editingTitle
  if title == "" then s
  else
    match result with
    | Except.ok updated =>
      { s with error := "",
               tasks := sortTasks (s.tasks.map (fun t => if t.id == taskId then updated else t)),
               editingId := none, editingTitle := "" }
    | Except.error m =>
      { s with error := jsOrStr (some m) "Failed to update task." }

/-- handleDelete of App.js given the awaited outcome of deleteTask: on
success the task is removed and edit mode left when it was the edited
task. -/
def handleDelete (s : AppState) (taskId : Int) (result : Except String Unit) : AppState :=
  match result with
  | Except.ok _ =>
    { s with error := "",
             tasks := s.tasks.filter (fun t => !(t.id == taskId)),
             editingId := if s.editingId == some taskId then none else s.editingId,
             editingTitle := if s.editingId == some taskId then "" else s.editingTitle }
  | Except.error m =>
    { s with error := jsOrStr (some m) "Failed to delete task." }

/-- The message s contains pat as a contiguous substring. -/
def strContains (s pat : String) : Prop :=
  ∃ a b, s.data = a ++ (pat.data ++ b)

/-- Success response of the create scenario: status 201 with the
created task as JSON body. -/
def rspCreated : HttpResponse :=
  ⟨201, some "application/json", some "x",
   some (JsValue.obj
     [("id", JsValue.num 7), ("title", JsValue.str "Buy milk"),
      ("is_completed", JsValue.bool false)]), ""⟩

/-- Success response whose JSON body decodes to a string value. -/
def rspJsonString : HttpResponse :=
  ⟨200, some "application/json", some "x", some (JsValue.str "hello"), ""⟩

/-- Failure response of the update scenario: status 404 with a JSON
error object. -/
def rspNotFound : HttpResponse :=
  ⟨404, some "application/json", some "x",
   some (JsValue.obj [("error", JsValue.str "not found")]), ""⟩

/-- Misconfigured-base scenario: status 200, HTML content type, HTML
body. -/
def rspHtml200 : HttpResponse :=
  ⟨200, some "text/html", some "<!DOCTYPE html>", none, ""⟩

/-- Success status, JSON content type, body that fails to decode. -/
def rspBadJson : HttpResponse :=
  ⟨200, some "application/json", some "not json", none,
   "SyntaxError: Unexpected token"⟩

/-- Delete scenario: status 204 with no body. -/
def rspNoContent : HttpResponse :=
  ⟨204, none, none, none, ""⟩

/-- Server value colliding with the decode-failure marker. -/
def sentinelVal : JsValue :=
  JsValue.obj [("__parse_error", JsValue.bool true), ("items", JsValue.arr [])]

/-- Success response whose JSON body is the colliding server value. -/
def rspSentinel : HttpResponse :=
  ⟨200, some "application/json", some "x", some sentinelVal, ""⟩

theorem strDataAppendEq (a b : String) : (a ++ b).data = a.data ++ b.data := rfl

theorem splitNonJsonLit :
    ("Unexpected non-JSON response for ").data
      = "Unexpected non-JSON response".data ++ " for ".data := by decide

theorem splitHtmlHintLit :
    htmlHint.data
      = "Received HTML instead of JSON".data ++ ". Check API base URL configuration.".data := by
  decide

/-- Claim C1 amended: on a success status with a JSON content type and a
body that decodes, the client returns the decoded value unchanged,
provided the decoded value is not a string value and does not satisfy
the truthy __parse_error test; decoded values of those two shapes are
rejected instead. -/
theorem c1_success_roundtrip (methodOpt : Option String) (path : String)
    (res : HttpResponse) (j : JsValue)
    (hok : statusOk res.status = true)
    (hct : isJsonContentType res.contentType = true)
    (hj : res.jsonBody = some j)
    (hstr : isStringJs j = false)
    (hpe : (jsTruthy j && jsTruthyOpt (getField j "__parse_error")) = false) :
    requestJson methodOpt path res = Except.ok j := by
  simp [requestJson, safeReadBody, hct, hj, hok, hstr, hpe]

/-- Claim C1 counterexample: a success response with a JSON content type
whose body decodes to the string value hello is not returned unchanged;
the client rejects it as a non-JSON response, so the identity round-trip
does exclude a shape of decoded value. -/
theorem c1_counterexample :
    statusOk rspJsonString.status = true ∧
    isJsonContentType rspJsonString.contentType = true ∧
    rspJsonString.jsonBody = some (JsValue.str "hello") ∧
    requestJson (some "GET") tasksPath rspJsonString ≠ Except.ok (JsValue.str "hello") ∧
    requestJson (some "GET") tasksPath rspJsonString
      = Except.error (nonJsonMsg "GET" "/tasks") := by
  refine ⟨rfl, by decide, rfl, ?_, rfl⟩
  intro h
  exact Except.noConfusion h

/-- Claim C1 witness: the create scenario response, status 201 with the
created task as JSON body, is returned unchanged. -/
theorem c1_witness :
    requestJson (some "POST") tasksPath rspCreated
      = Except.ok (JsValue.obj
          [("id", JsValue.num 7), ("title", JsValue.str "Buy milk"),
           ("is_completed", JsValue.bool false)]) :=
  c1_success_roundtrip (some "POST") tasksPath rspCreated _ rfl (by decide) rfl rfl (by decide)

/-- Claim C6: the update scenario, PUT on task 3 answered with status
404 and a JSON error object, fails with exactly the composed message
carrying the generic hint; the HTML test is false on the decoded object
body. -/
theorem c6_update_404_message :
    updateTask 3 (JsValue.obj []) rspNotFound
      = Except.error "PUT /tasks/3 failed (404). Unexpected response from server." ∧
    isHtmlString (safeReadBody rspNotFound) = false :=
  ⟨rfl, rfl⟩

/-- Claim C10: a success response with a JSON content type whose body
decodes to a server object carrying a truthy __parse_error field is
misclassified; the client fails with the invalid-JSON message instead
of returning the decoded value. -/
theorem c10_sentinel_collision :
    statusOk rspSentinel.status = true ∧
    isJsonContentType rspSentinel.contentType = true ∧
    rspSentinel.jsonBody = some sentinelVal ∧
    requestJson none tasksPath rspSentinel = Except.error (invalidJsonMsg "GET" "/tasks") ∧
    requestJson none tasksPath rspSentinel ≠ Except.ok sentinelVal := by
  refine ⟨rfl, by decide, rfl, rfl, ?_⟩
  intro h
  exact Except.noConfusion h

theorem splitInvalidLit :
    ("Invalid JSON response for ").data
      = "Invalid JSON response".data ++ " for ".data := by decide

theorem helpfulMsg_parts (method path : String) (status : Nat) (body : JsValue) :
    strContains (toHelpfulErrorMessage method path status body) method ∧
    strContains (toHelpfulErrorMessage method path status body) path ∧
    strContains (toHelpfulErrorMessage method path status body) (toString status) := by
  refine
    ⟨⟨[], (" " ++ path ++ " failed (" ++ toString status ++ "). " ++
        (if isHtmlString body then htmlHint else serverHint)).data, ?_⟩,
     ⟨(method ++ " ").data, (" failed (" ++ toString status ++ "). " ++
        (if isHtmlString body then htmlHint else serverHint)).data, ?_⟩,
     ⟨(method ++ " " ++ path ++ " failed (").data, ("). " ++
        (if isHtmlString body then htmlHint else serverHint)).data, ?_⟩⟩ <;>
  simp [toHelpfulErrorMessage, strDataAppendEq, List.append_assoc]

/-- Claim C2: on a non-success status the client fails with the helpful
message, whatever the body held, so the non-JSON and invalid-JSON
checks are never reached; the message is the method, the path and the
status composed into the diagnostic line followed by one of the two
hints, and it contains the method, the path and the printed status. -/
theorem c2_failure_message (methodOpt : Option String) (path : String) (res : HttpResponse)
    (h : statusOk res.status = false) :
    requestJson methodOpt path res
      = Except.error
          (toHelpfulErrorMessage (normMethod methodOpt) path res.status (safeReadBody res)) ∧
    (toHelpfulErrorMessage (normMethod methodOpt) path res.status (safeReadBody res)
        = normMethod methodOpt ++ " " ++ path ++ " failed (" ++ toString res.status ++ "). "
            ++ htmlHint
      ∨ toHelpfulErrorMessage (normMethod methodOpt) path res.status (safeReadBody res)
        = normMethod methodOpt ++ " " ++ path ++ " failed (" ++ toString res.status ++ "). "
            ++ serverHint) ∧
    strContains (toHelpfulErrorMessage (normMethod methodOpt) path res.status (safeReadBody res))
      (normMethod methodOpt) ∧
    strContains (toHelpfulErrorMessage (normMethod methodOpt) path res.status (safeReadBody res))
      path ∧
    strContains (toHelpfulErrorMessage (normMethod methodOpt) path res.status (safeReadBody res))
      (toString res.status) := by
  refine ⟨?_, ?_, (helpfulMsg_parts _ _ _ _).1, (helpfulMsg_parts _ _ _ _).2.1,
    (helpfulMsg_parts _ _ _ _).2.2⟩
  · simp [requestJson, h]
  · cases hb : isHtmlString (safeReadBody res) with
    | false => exact Or.inr (by simp [toHelpfulErrorMessage, hb])
    | true => exact Or.inl (by simp [toHelpfulErrorMessage, hb])

/-- Claim C2 witness: the 404 update response yields the normalized
failure. -/
theorem c2_witness :
    requestJson (some "PUT") (taskPath 3) rspNotFound
      = Except.error
          (toHelpfulErrorMessage (normMethod (some "PUT")) (taskPath 3) rspNotFound.status
            (safeReadBody rspNotFound)) :=
  (c2_failure_message (some "PUT") (taskPath 3) rspNotFound rfl).1

/-- Claim C3: on a success status with a content type that is not JSON
the body is held as a plain string and the client fails with the
non-JSON message, which contains the phrase followed by the method and
the path. -/
theorem c3_nonjson_success (methodOpt : Option String) (path : String) (res : HttpResponse)
    (hok : statusOk res.status = true)
    (hct : isJsonContentType res.contentType = false) :
    requestJson methodOpt path res = Except.error (nonJsonMsg (normMethod methodOpt) path) ∧
    strContains (nonJsonMsg (normMethod methodOpt) path)
      ("Unexpected non-JSON response for " ++ normMethod methodOpt ++ " " ++ path) ∧
    strContains (nonJsonMsg (normMethod methodOpt) path) "Unexpected non-JSON response" := by
  refine ⟨?_,
    ⟨[], ". Check API base URL configuration.".data, ?_⟩,
    ⟨[], (" for " ++ normMethod methodOpt ++ " " ++ path
        ++ ". Check API base URL configuration.").data, ?_⟩⟩
  · simp [requestJson, safeReadBody, hct, hok, isStringJs]
  · simp [nonJsonMsg, strDataAppendEq, List.append_assoc]
  · simp [nonJsonMsg, strDataAppendEq, List.append_assoc, splitNonJsonLit]

/-- Claim C3 witness: the misconfigured-base scenario, GET on the tasks
path answered with status 200 and an HTML page, fails with the
non-JSON message for GET on the tasks path. -/
theorem c3_witness :
    listTasks rspHtml200 = Except.error (nonJsonMsg "GET" "/tasks") :=
  (c3_nonjson_success none tasksPath rspHtml200 rfl (by decide)).1

/-- Claim C4 counterexample: a body string holding leading whitespace
before the document declaration does not start with the declaration,
yet the failure message carries the HTML hint rather than the generic
hint, because the code trims the body before the test. -/
theorem c4_counterexample :
    leadsWith "<!DOCTYPE".data "  <!DOCTYPE html>".data = false ∧
    toHelpfulErrorMessage "GET" "/tasks" 500 (JsValue.str "  <!DOCTYPE html>")
      = "GET /tasks failed (500). Received HTML instead of JSON. Check API base URL configuration." ∧
    toHelpfulErrorMessage "GET" "/tasks" 500 (JsValue.str "  <!DOCTYPE html>")
      ≠ "GET /tasks failed (500). Unexpected response from server." :=
  ⟨by decide, rfl, by decide⟩

/-- Claim C4 amended: when the captured body is a string whose
whitespace-trimmed form starts with the document declaration the
failure message contains the HTML hint phrase, and for every other
captured body the hint is the generic one. -/
theorem c4_hint_classification (method path : String) (status : Nat) (body : JsValue) :
    (isHtmlString body = true →
      strContains (toHelpfulErrorMessage method path status body)
        "Received HTML instead of JSON") ∧
    (isHtmlString body = false →
      toHelpfulErrorMessage method path status body
        = method ++ " " ++ path ++ " failed (" ++ toString status ++ "). " ++ serverHint) := by
  constructor
  · intro hb
    refine ⟨(method ++ " " ++ path ++ " failed (" ++ toString status ++ "). ").data,
      ". Check API base URL configuration.".data, ?_⟩
    simp [toHelpfulErrorMessage, hb, strDataAppendEq, List.append_assoc, splitHtmlHintLit]
  · intro hb
    simp [toHelpfulErrorMessage, hb]

/-- Claim C4 witness: an HTML body on a failed request produces a
message containing the HTML hint phrase. -/
theorem c4_witness :
    strContains (toHelpfulErrorMessage "GET" "/tasks" 502 (JsValue.str "<!DOCTYPE html>"))
      "Received HTML instead of JSON" :=
  (c4_hint_classification "GET" "/tasks" 502 (JsValue.str "<!DOCTYPE html>")).1 (by decide)

/-- Claim C5: on a success status with a JSON content type whose body
fails to decode, the failure is first captured as the marked wrapper
object and only after the status check converted into the invalid-JSON
message, which contains the phrase. -/
theorem c5_invalid_json (methodOpt : Option String) (path : String) (res : HttpResponse)
    (hok : statusOk res.status = true)
    (hct : isJsonContentType res.contentType = true)
    (hj : res.jsonBody = none) :
    safeReadBody res
      = JsValue.obj
          [("__parse_error", JsValue.bool true),
           ("__raw", JsValue.str (res.textBody.getD "")),
           ("__error", JsValue.str res.parseErrMsg)] ∧
    requestJson methodOpt path res
      = Except.error (invalidJsonMsg (normMethod methodOpt) path) ∧
    strContains (invalidJsonMsg (normMethod methodOpt) path) "Invalid JSON response" := by
  refine ⟨?_, ?_,
    ⟨[], (" for " ++ normMethod methodOpt ++ " " ++ path
        ++ ". Check API base URL configuration.").data, ?_⟩⟩
  · simp [safeReadBody, hct, hj]
  · simp [requestJson, safeReadBody, hct, hj, hok, isStringJs, jsTruthy, jsTruthyOpt,
      getField, lookupLast]
  · simp [invalidJsonMsg, strDataAppendEq, List.append_assoc, splitInvalidLit]

/-- Claim C5 witness: a success response with a JSON content type and
an undecodable body fails with the invalid-JSON message. -/
theorem c5_witness :
    requestJson none tasksPath rspBadJson = Except.error (invalidJsonMsg "GET" "/tasks") :=
  (c5_invalid_json none tasksPath rspBadJson rfl (by decide) rfl).2.1

/-- Claim C7: on any success status the delete operation succeeds with
no value, and only on a non-success status does it read the body and
fail through the same normalization as the other operations. -/
theorem c7_delete_outcomes (taskId : Int) (res : HttpResponse) :
    (statusOk res.status = true → deleteTask taskId res = Except.ok ()) ∧
    (statusOk res.status = false →
      deleteTask taskId res
        = Except.error
            (toHelpfulErrorMessage "DELETE" (taskPath taskId) res.status (safeReadBody res))) := by
  constructor <;> intro h <;> simp [deleteTask, h]

/-- Claim C7 witness: DELETE of task 5 answered with status 204 and no
body succeeds with no value. -/
theorem c7_witness : deleteTask 5 rspNoContent = Except.ok () :=
  (c7_delete_outcomes 5 rspNoContent).1 rfl

/-- Claim C8: the base URL takes the first non-empty environment value
in order, with a trailing slash stripped; with neither variable set it
is the empty string and every request URL is just the path; every
operation URL is the resolved base followed by its fixed or
identifier-interpolated path. -/
theorem c8_base_url (e1 e2 : Option String) (path : String) (taskId : Int) :
    (∀ s1, e1 = some s1 → (s1 == "") = false → API_BASE e1 e2 = stripTrailingSlash s1) ∧
    ((e1 = none ∨ e1 = some "") →
      ∀ s2, e2 = some s2 → (s2 == "") = false → API_BASE e1 e2 = stripTrailingSlash s2) ∧
    ((e1 = none ∨ e1 = some "") → (e2 = none ∨ e2 = some "") → API_BASE e1 e2 = "") ∧
    (∀ s : String, ∀ c, s.data.getLast? = some c → c = '/' →
      stripTrailingSlash s = ⟨s.data.dropLast⟩) ∧
    ((e1 = none ∨ e1 = some "") → (e2 = none ∨ e2 = some "") →
      url (API_BASE e1 e2) path = path) ∧
    listTasksUrl (API_BASE e1 e2) = API_BASE e1 e2 ++ tasksPath ∧
    createTaskUrl (API_BASE e1 e2) = API_BASE e1 e2 ++ tasksPath ∧
    updateTaskUrl (API_BASE e1 e2) taskId = API_BASE e1 e2 ++ taskPath taskId ∧
    toggleTaskUrl (API_BASE e1 e2) taskId = API_BASE e1 e2 ++ togglePath taskId ∧
    deleteTaskUrl (API_BASE e1 e2) taskId = API_BASE e1 e2 ++ taskPath taskId := by
  refine ⟨?_, ?_, ?_, ?_, ?_, rfl, rfl, rfl, rfl, rfl⟩
  · intro s1 h1 hne
    subst h1
    simp [API_BASE, jsOrStr, hne]
  · rintro (rfl | rfl) s2 h2 hne <;> subst h2 <;> simp [API_BASE, jsOrStr, hne]
  · rintro (rfl | rfl) (rfl | rfl) <;> rfl
  · intro s c hlast hc
    subst hc
    unfold stripTrailingSlash
    rw [hlast]
    simp
  · rintro (rfl | rfl) (rfl | rfl) <;> (cases path; rfl)

/-- Claim C8 witness: with the first variable set to a value carrying a
trailing slash and the second unset, the base URL is that value with
the slash removed. -/
theorem c8_witness :
    API_BASE (some "http://localhost:3001/") none = "http://localhost:3001" :=
  (c8_base_url (some "http://localhost:3001/") none "/tasks" 1).1 "http://localhost:3001/" rfl rfl

/-- Claim C9: each App handler leaves the task list unchanged on a
failed operation and then sets only the error message (with a fallback
for an empty message), while on success the task list becomes exactly
the update the code performs. -/
theorem c9_handlers_preserve_tasks (s : AppState) (m : String) (taskId : Int) (u : TaskItem) :
    handleAdd s (Except.error m)
      = (if strTrim s.newTitle == "" then s
         else { s with error := jsOrStr (some m) "Failed to create task." }) ∧
    handleToggle s taskId (Except.error m)
      = { s with error := jsOrStr (some m) "Failed to toggle task." } ∧
    saveEdit s taskId (Except.error m)
      = (if strTrim s.editingTitle == "" then s
         else { s with error := jsOrStr (some m) "Failed to update task." }) ∧
    handleDelete s taskId (Except.error m)
      = { s with error := jsOrStr (some m) "Failed to delete task." } ∧
    (handleAdd s (Except.error m)).tasks = s.tasks ∧
    (handleToggle s taskId (Except.error m)).tasks = s.tasks ∧
    (saveEdit s taskId (Except.error m)).tasks = s.tasks ∧
    (handleDelete s taskId (Except.error m)).tasks = s.tasks ∧
    (handleAdd s (Except.ok u)).tasks
      = (if strTrim s.newTitle == "" then s.tasks else sortTasks (u :: s.tasks)) ∧
    (handleToggle s taskId (Except.ok u)).tasks
      = sortTasks (s.tasks.map (fun t => if t.id == taskId then u else t)) ∧
    (saveEdit s taskId (Except.ok u)).tasks
      = (if strTrim s.editingTitle == "" then s.tasks
         else sortTasks (s.tasks.map (fun t => if t.id == taskId then u else t))) ∧
    (handleDelete s taskId (Except.ok ())).tasks
      = s.tasks.filter (fun t => !(t.id == taskId)) := by
  refine ⟨rfl, rfl, rfl, rfl, ?_, rfl, ?_, rfl, ?_, rfl, ?_, rfl⟩
  · cases h : strTrim s.newTitle == "" <;> simp [handleAdd, h]
  · cases h : strTrim s.editingTitle == "" <;> simp [saveEdit, h]
  · cases h : strTrim s.newTitle == "" <;> simp [handleAdd, h]
  · cases h : strTrim s.editingTitle == "" <;> simp [saveEdit, h]
